import Mathlib

/-!
Shallow embedding of the clr-boot-manager boot orchestration core
(`src/bootman/bootman.c`, `src/bootman/sysconfig.c`,
`src/bootloaders/extlinux.c`).

Pure data is translated directly; stateful C code (module-level statics of
the extlinux backend, facade fields) becomes explicit state passing; the
injectable system stubs (`system_stub`, blkid, file helpers) become
explicit environment records whose fields hold the outcome each stub
would report.
-/

namespace Cbm

/-- The `BOOTLOADER_CAP_GPT` bit.  Modelled from the spec: `bootloader.h` is not
in the sources; the spec fixes the capability bitset as five distinct,
extensible bits `GPT, LEGACY, UEFI, EXTFS, FATFS`. -/
def BOOTLOADER_CAP_GPT : Nat := 1

/-- The `BOOTLOADER_CAP_LEGACY` bit (modelled from the spec, see
`BOOTLOADER_CAP_GPT`). -/
def BOOTLOADER_CAP_LEGACY : Nat := 2

/-- The `BOOTLOADER_CAP_UEFI` bit (modelled from the spec, see
`BOOTLOADER_CAP_GPT`). -/
def BOOTLOADER_CAP_UEFI : Nat := 4

/-- The `BOOTLOADER_CAP_EXTFS` bit (modelled from the spec, see
`BOOTLOADER_CAP_GPT`). -/
def BOOTLOADER_CAP_EXTFS : Nat := 8

/-- The `BOOTLOADER_CAP_FATFS` bit (modelled from the spec, see
`BOOTLOADER_CAP_GPT`). -/
def BOOTLOADER_CAP_FATFS : Nat := 16

/-- Kernel metadata, the observable fields of the external `Kernel` type
used by the core (`meta.ktype`, `meta.version`, `meta.release`,
`meta.bpath`, `meta.cmdline`). -/
structure KernelMeta where
  ktype : String
  version : String
  release : Int
  bpath : String
  cmdline : String
deriving DecidableEq, Repr

/-- The `kernel->source`: the source path of the kernel blob. -/
structure KernelSource where
  path : String
deriving DecidableEq, Repr

/-- The `kernel->target`: legacy stanza name and optional initrd path. -/
structure KernelTarget where
  legacy_path : String
  initrd_path : Option String
deriving DecidableEq, Repr

/-- The `Kernel` record as the core observes it. -/
structure Kernel where
  meta : KernelMeta
  source : KernelSource
  target : KernelTarget
deriving DecidableEq, Repr

/-- The `CbmDeviceProbe`: root-device probe result (`uuid`, optional
`part_uuid`, optional `luks_uuid`). -/
structure CbmDeviceProbe where
  uuid : String
  part_uuid : Option String
  luks_uuid : Option String
deriving DecidableEq, Repr

/-- The `SystemConfig` produced by `cbm_inspect_root` (field `prefix` is
rendered `pfx`). -/
structure SystemConfig where
  pfx : String
  boot_device : Option String
  root_device : Option CbmDeviceProbe
  wanted_boot_mask : Nat
deriving DecidableEq, Repr

/-- The `cbm_get_fstype` (sysconfig.c lines 40-77), on the success path of the
blkid probe: maps the probed `TYPE` string to a capability bit, returning
`0` for any type other than ext2/3/4 and vfat.  (Probe failures call
`exit(EXIT_FAILURE)` and so never produce a `SystemConfig`.) -/
def cbm_get_fstype (data : String) : Nat :=
  if data = "ext2" ∨ data = "ext3" ∨ data = "ext4" then BOOTLOADER_CAP_EXTFS
  else if data = "vfat" then BOOTLOADER_CAP_FATFS
  else 0

/-- Environment of `cbm_inspect_root`: outcomes of the injectable probes
and path helpers it calls. -/
structure InspectEnv where
  /-- The `realpath(path, NULL)` on the candidate prefix; `none` = fails. -/
  realpath_pfx : Option String
  /-- The `nc_file_exists("<sysfs>/firmware/efi")`. -/
  fw_efi_exists : Bool
  /-- The `get_legacy_boot_device(realp)` result. -/
  legacy_boot_device : Option String
  /-- The `get_boot_device()` result (ESP discovery). -/
  esp_boot_device : Option String
  /-- The `realpath` on a discovered boot device; `none` = fails. -/
  realpath_boot : String → Option String
  /-- blkid `TYPE` string for a device (input to `cbm_get_fstype`). -/
  fstype_of : String → String
  /-- The `cbm_probe_path(realp)` result; `none` = NULL. -/
  root_probe : Option CbmDeviceProbe

/-- The `refine_device` tail of `cbm_inspect_root` (sysconfig.c lines
153-176): re-resolve the boot device (keeping the unresolved path when
`realpath` fails), OR in `GPT` and the filesystem capability, then probe
the root device. -/
def cbm_refine_device (env : InspectEnv) (realp : String) (boot : Option String)
    (mask : Nat) : SystemConfig :=
  match boot with
  | none =>
      { pfx := realp, boot_device := none, root_device := env.root_probe,
        wanted_boot_mask := mask }
  | some b =>
      let b' := (env.realpath_boot b).getD b
      let mask' := (mask ||| BOOTLOADER_CAP_GPT) ||| cbm_get_fstype (env.fstype_of b')
      { pfx := realp, boot_device := some b', root_device := env.root_probe,
        wanted_boot_mask := mask' }

/-- The body of `cbm_inspect_root` after the prefix resolved (sysconfig.c
lines 96-176): decide native UEFI (`!image_mode && env.fw_efi_exists`),
discover a legacy boot device (skipped on native UEFI outside image
mode) with mask `LEGACY|GPT`, else an ESP (outside image mode) with mask
`UEFI|GPT`, else mask `UEFI`/`LEGACY` by native UEFI outside image mode
and `UEFI` in image mode; then refine the device and probe the root
device. -/
def cbm_inspect_root_resolved (env : InspectEnv) (realp : String)
    (image_mode : Bool) : SystemConfig :=
  match (if !(!image_mode && env.fw_efi_exists) || image_mode then
           env.legacy_boot_device
         else none) with
  | some b =>
      cbm_refine_device env realp (some b)
        (BOOTLOADER_CAP_LEGACY ||| BOOTLOADER_CAP_GPT)
  | none =>
      match (if !image_mode then env.esp_boot_device else none) with
      | some b =>
          cbm_refine_device env realp (some b)
            (BOOTLOADER_CAP_UEFI ||| BOOTLOADER_CAP_GPT)
      | none =>
          cbm_refine_device env realp none
            (if !image_mode then
               if !image_mode && env.fw_efi_exists then BOOTLOADER_CAP_UEFI
               else BOOTLOADER_CAP_LEGACY
             else BOOTLOADER_CAP_UEFI)

/-- The `cbm_inspect_root` (sysconfig.c lines 79-177): fail (NULL) when the
prefix does not resolve, else inspect the resolved root. -/
def cbm_inspect_root (env : InspectEnv) (image_mode : Bool) : Option SystemConfig :=
  match env.realpath_pfx with
  | none => none
  | some realp => some (cbm_inspect_root_resolved env realp image_mode)

/-- The `cbm_is_sysconfig_sane` on a produced (non-NULL) config: requires a
root device. -/
def cbm_is_sysconfig_sane (config : SystemConfig) : Bool :=
  config.root_device.isSome

/-- The extlinux backend's module-level state (extlinux.c lines 36-38):
the queued-kernel array, the cached `extlinux` command line, and the
cached base path. -/
structure ExtState where
  kernel_queue : List Kernel
  extlinux_cmd : String
  base_path : String
deriving DecidableEq, Repr

/-- The `extlinux_init` (extlinux.c lines 40-78): frees any existing queue and
allocates a fresh empty one, caches the boot dir as `base_path`, and
rebuilds the `extlinux -U`/`-i` command depending on whether
`<base_path>/ldlinux.sys` exists.  The old state is discarded wholesale,
so the result does not depend on it. -/
def extlinux_init (boot_dir : String) (pfx : String) (ldlinux_exists : Bool) : ExtState :=
  { kernel_queue := [],
    extlinux_cmd :=
      if ldlinux_exists then
        pfx ++ "/usr/bin/extlinux -U " ++ boot_dir ++ " &> /dev/null"
      else
        pfx ++ "/usr/bin/extlinux -i " ++ boot_dir ++ " &> /dev/null",
    base_path := boot_dir }

/-- The `extlinux_install_kernel` (extlinux.c lines 81-99): scan the queue for
a kernel with the same `source.path`; if found return success without
queueing, else append and return success. -/
def extlinux_install_kernel (st : ExtState) (kernel : Kernel) : ExtState × Bool :=
  if st.kernel_queue.any (fun k => k.source.path = kernel.source.path) then
    (st, true)
  else
    ({ st with kernel_queue := st.kernel_queue ++ [kernel] }, true)

/-- The `extlinux_remove_kernel` (extlinux.c lines 102-106): a no-op returning
success. -/
def extlinux_remove_kernel (st : ExtState) (_kernel : Kernel) : ExtState × Bool :=
  (st, true)

/-- The per-kernel initrd CSV exactly as extlinux.c lines 138-161 builds
it: starting from the empty string, append `,<path>` for the kernel's own
`target.initrd_path` when present, then `,<name>` for every freestanding
initrd in facade iteration order.  The leading comma is later skipped by
emitting the string from index 1. -/
def extlinux_initrd_csv (kernel : Kernel) (freestanding : List String) : String :=
  let s0 :=
    match kernel.target.initrd_path with
    | some p => "" ++ "," ++ p
    | none => ""
  freestanding.foldl (fun acc name => acc ++ "," ++ name) s0

/-- The `APPEND` line of a stanza (extlinux.c lines 167-182):
`root=PARTUUID=` when the root device has a `part_uuid`, else
`root=UUID=`; then `rd.luks.uuid=` when a LUKS UUID is present; then the
kernel's cmdline. -/
def extlinux_append_line (root_dev : CbmDeviceProbe) (kernel : Kernel) : String :=
  "APPEND " ++
    (match root_dev.part_uuid with
     | some p => "root=PARTUUID=" ++ p ++ " "
     | none => "root=UUID=" ++ root_dev.uuid ++ " ") ++
    (match root_dev.luks_uuid with
     | some l => "rd.luks.uuid=" ++ l ++ " "
     | none => "") ++
    kernel.meta.cmdline ++ "\n"

/-- One queued kernel's block of the synthesized config (extlinux.c lines
136-183): optional `DEFAULT` line when the kernel's `source.path` equals
the requested default's, then `LABEL`, `  KERNEL`, the `  INITRD` line
only when the CSV is non-empty (emitted from index 1 to skip the leading
comma), then the `APPEND` line. -/
def extlinux_stanza (root_dev : CbmDeviceProbe) (freestanding : List String)
    (default_kernel : Option Kernel) (k : Kernel) : String :=
  (match default_kernel with
   | some d =>
       if k.source.path = d.source.path then
         "DEFAULT " ++ k.target.legacy_path ++ "\n"
       else ""
   | none => "") ++
  "LABEL " ++ k.target.legacy_path ++ "\n" ++
  "  KERNEL " ++ k.target.legacy_path ++ "\n" ++
  (if (extlinux_initrd_csv k freestanding).length ≠ 0 then
     "  INITRD " ++ (extlinux_initrd_csv k freestanding).drop 1 ++ "\n"
   else "") ++
  extlinux_append_line root_dev k

/-- The full config text synthesized by `extlinux_set_default_kernel`
(extlinux.c lines 126-183): `TIMEOUT 100\n` when no default kernel is
requested, then the queued kernels' stanzas in insertion order. -/
def extlinux_config (root_dev : CbmDeviceProbe) (freestanding : List String)
    (queue : List Kernel) (default_kernel : Option Kernel) : String :=
  (match default_kernel with
   | none => "TIMEOUT 100\n"
   | some _ => "") ++
  String.join (queue.map (extlinux_stanza root_dev freestanding default_kernel))

/-- File-system outcomes seen by `extlinux_set_default_kernel`. -/
structure ExtFileEnv where
  /-- The `file_get_text(config_path, ...)`: current on-disk config content,
  `none` when the read fails. -/
  old_conf : Option String
  /-- whether `file_set_text` would succeed. -/
  write_ok : Bool

/-- Observable outcome of `extlinux_set_default_kernel`: the returned
boolean, whether the config file was written, and whether `cbm_sync` was
called. -/
structure ExtSetDefaultOutcome where
  ok : Bool
  wrote : Bool
  synced : Bool
deriving DecidableEq, Repr

/-- The `extlinux_set_default_kernel` (extlinux.c lines 109-208): fail when
the root device is unknown; synthesize the config from the queued
kernels; if the on-disk file reads back equal to the new bytes, return
success without writing or syncing; otherwise write (failing on write
error) and call `cbm_sync`. -/
def extlinux_set_default_kernel (env : ExtFileEnv) (root_dev : Option CbmDeviceProbe)
    (freestanding : List String) (st : ExtState) (default_kernel : Option Kernel)
    : ExtSetDefaultOutcome :=
  match root_dev with
  | none => { ok := false, wrote := false, synced := false }
  | some rd =>
      let conf := extlinux_config rd freestanding st.kernel_queue default_kernel
      let unchanged : Bool :=
        match env.old_conf with
        | some old => old = conf
        | none => false
      if unchanged then { ok := true, wrote := false, synced := false }
      else if env.write_ok then { ok := true, wrote := true, synced := true }
      else { ok := false, wrote := true, synced := false }

/-- The `extlinux_needs_update` (extlinux.c lines 215-218): always true. -/
def extlinux_needs_update : Bool := true

/-- The `extlinux_needs_install` (extlinux.c lines 220-223): always true. -/
def extlinux_needs_install : Bool := true

/-- System outcomes seen by `extlinux_install`. -/
structure ExtInstallEnv where
  /-- The `open(parent_disk, O_WRONLY)` succeeds. -/
  open_mbr_ok : Bool
  /-- The `open(<pfx>/usr/share/extlinux/gptmbr.bin, O_RDONLY)` succeeds. -/
  open_gptmbr_ok : Bool
  /-- The `sendfile(mbr, extlinux_mbr, NULL, n)`: bytes transferred when asked
  for `n` bytes. -/
  sendfile : Nat → Int
  /-- exit status of `cbm_system_system(extlinux_cmd)`. -/
  extlinux_cmd_rc : Int

/-- The `CBM_MBR_SYSLINUX_SIZE` (extlinux.c line 34). -/
def CBM_MBR_SYSLINUX_SIZE : Nat := 440

/-- The `extlinux_install` (extlinux.c lines 225-264): open the parent disk
write-only and the gptmbr.bin read-only (failure of either returns
false), `sendfile` exactly `CBM_MBR_SYSLINUX_SIZE` bytes to offset 0
(any other transferred count returns false), then run the cached
extlinux command (non-zero exit returns false), then sync. -/
def extlinux_install (env : ExtInstallEnv) : Bool :=
  if !env.open_mbr_ok then false
  else if !env.open_gptmbr_ok then false
  else if env.sendfile CBM_MBR_SYSLINUX_SIZE ≠ (CBM_MBR_SYSLINUX_SIZE : Int) then false
  else if env.extlinux_cmd_rc ≠ 0 then false
  else true

/-- The `extlinux_get_capabilities` (extlinux.c lines 293-306): zero when the
`extlinux` binary under the prefix is not executable, else `GPT|LEGACY`. -/
def extlinux_get_capabilities (extlinux_binary_executable : Bool) : Nat :=
  if extlinux_binary_executable then
    BOOTLOADER_CAP_GPT ||| BOOTLOADER_CAP_LEGACY
  else 0

/-- The `BOOT_DIRECTORY`.  Modelled from the spec: the constant comes from the
generated `config.h`, which is not in the sources; the spec calls it the
"default boot subpath" appended to the prefix.  Its concrete value is
irrelevant to every claim below. -/
def BOOT_DIRECTORY : String := "/boot"

/-- Outcomes of the injectable system stubs and path helpers the facade
and the Mount Broker consult. -/
structure SysEnv where
  /-- The `realpath(p, NULL)`; `none` = fails. -/
  realpath : String → Option String
  /-- The `cbm_system_is_mounted(p)`. -/
  is_mounted : String → Bool
  /-- The `cbm_system_get_mountpoint_for_device(dev)`. -/
  mountpoint_for_device : String → Option String
  /-- whether `cbm_system_mount(...)` would succeed. -/
  mount_ok : Bool
  /-- The `nc_file_exists(p)` (used for `<boot_dir>/ldlinux.sys`). -/
  file_exists : String → Bool

/-- The facade state the embedded operations touch: the boot-dir override,
the `SystemConfig`, the freestanding-initrd names in facade iteration
order, and the selected extlinux backend's module state. -/
structure Facade where
  abs_bootdir : Option String
  sysconfig : SystemConfig
  freestanding : List String
  ext : ExtState
deriving Repr

/-- The `boot_manager_get_boot_dir` (bootman.c lines 542-564): the override
when set; else prefix + `BOOT_DIRECTORY`, resolved through `realpath`
with fallback to the unresolved concatenation. -/
def boot_manager_get_boot_dir (env : SysEnv) (f : Facade) : String :=
  match f.abs_bootdir with
  | some d => d
  | none =>
      let ret := f.sysconfig.pfx ++ BOOT_DIRECTORY
      (env.realpath ret).getD ret

/-- The `boot_manager_set_boot_dir` (bootman.c lines 566-596) with the
extlinux backend selected: store the new override, then destroy and
re-init the backend.  `extlinux_init` reads the boot dir back from the
facade (now the override) and checks `<boot_dir>/ldlinux.sys`. -/
def boot_manager_set_boot_dir (env : SysEnv) (f : Facade) (bootdir : String) : Facade :=
  let f' := { f with abs_bootdir := some bootdir }
  let boot_dir := boot_manager_get_boot_dir env f'
  { f' with
    ext := extlinux_init boot_dir f'.sysconfig.pfx
      (env.file_exists (boot_dir ++ "/ldlinux.sys")) }

/-- The Mount Broker's tri-state (bootman.c `mount_boot` doc): `-1` error,
`0` already mounted, `1` mount completed, with the reported boot
directory. -/
inductive MountResult where
  | error : MountResult
  | alreadyMounted : String → MountResult
  | weMounted : String → MountResult
deriving DecidableEq, Repr

/-- Observable outcome of `mount_boot`: the tri-state result, the facade
state after any backend re-initialization, and whether a mount syscall
was issued. -/
structure MountOutcome where
  result : MountResult
  facade : Facade
  mount_called : Bool

/-- The `mount_boot` (bootman.c lines 397-484): if the expected boot dir is
already a mount point, report `alreadyMounted` with it; else require a
boot device; if the system reports the device mounted somewhere, adopt
that path via `boot_manager_set_boot_dir` and report `alreadyMounted`
with the originally computed expected boot dir; else mount the device at
the expected dir, re-init the backend under it, and report `weMounted`. -/
def mount_boot (env : SysEnv) (f : Facade) : MountOutcome :=
  let boot_dir := boot_manager_get_boot_dir env f
  if env.is_mounted boot_dir then
    { result := .alreadyMounted boot_dir, facade := f, mount_called := false }
  else
    match f.sysconfig.boot_device with
    | none => { result := .error, facade := f, mount_called := false }
    | some dev =>
        match env.mountpoint_for_device dev with
        | some m =>
            { result := .alreadyMounted boot_dir,
              facade := boot_manager_set_boot_dir env f m,
              mount_called := false }
        | none =>
            if env.mount_ok then
              { result := .weMounted boot_dir,
                facade := boot_manager_set_boot_dir env f boot_dir,
                mount_called := true }
            else
              { result := .error, facade := f, mount_called := true }

/-- Whether two kernels denote the same installed kernel for the facade's
search (bootman.c lines 332-334): equality on `(ktype, version,
release)`. -/
def kernel_matches (a b : Kernel) : Bool :=
  a.meta.ktype = b.meta.ktype && a.meta.version = b.meta.version &&
    a.meta.release = b.meta.release

/-- Observable outcome of the facade's `set_default_kernel`: the returned
boolean and the kernel argument passed to the backend's
`set_default_kernel` (when it was called at all). -/
structure FacadeSetDefaultOutcome where
  ok : Bool
  backend_arg : Option Kernel
deriving DecidableEq, Repr

/-- The mount step of `boot_manager_set_default_kernel` (bootman.c lines
320-329): legacy mode skips mounting (`did_mount = 0`, facade untouched);
otherwise the Mount Broker runs, and an error refuses the operation. -/
def set_default_step (env : SysEnv) (f : Facade) : Option Facade :=
  if (f.sysconfig.wanted_boot_mask &&& BOOTLOADER_CAP_LEGACY) = BOOTLOADER_CAP_LEGACY then
    some f
  else
    match mount_boot env f with
    | { result := .error, .. } => none
    | mo => some mo.facade

/-- The `boot_manager_set_default_kernel` (bootman.c lines 297-348) with the
extlinux backend selected: refuse on insane sysconfig; enumerate kernels
(given here as `kernels`) and refuse when empty; skip mounting in legacy
mode, else run the Mount Broker and refuse on error; scan for the first
enumerated kernel matching the caller's on `(ktype, version, release)`;
when found, invoke the backend with the caller's `kernel` argument and
return its result; when none matches, return false. -/
def boot_manager_set_default_kernel (env : SysEnv) (fenv : ExtFileEnv)
    (kernels : List Kernel) (f : Facade) (kernel : Kernel) : FacadeSetDefaultOutcome :=
  if !cbm_is_sysconfig_sane f.sysconfig then
    { ok := false, backend_arg := none }
  else if kernels.isEmpty then
    { ok := false, backend_arg := none }
  else
    match set_default_step env f with
    | none => { ok := false, backend_arg := none }
    | some f' =>
        match kernels.find? (fun k => kernel_matches kernel k) with
        | none => { ok := false, backend_arg := none }
        | some _ =>
            let out := extlinux_set_default_kernel fenv f'.sysconfig.root_device
              f'.freestanding f'.ext (some kernel)
            { ok := out.ok, backend_arg := some kernel }

/-- The operation flags of `boot_manager_modify_bootloader`, one field per
`BOOTLOADER_OPERATION_*` bit the code tests. -/
structure OpFlags where
  op_install : Bool
  op_remove : Bool
  op_update : Bool
  nocheck : Bool
deriving DecidableEq, Repr

/-- Which backend operation `boot_manager_modify_bootloader` dispatched. -/
inductive ModifyAction where
  | ranInstall : ModifyAction
  | ranUpdate : ModifyAction
  | ranRemove : ModifyAction
  | skipped : ModifyAction
deriving DecidableEq, Repr

/-- The `extlinux_remove` (extlinux.c lines 271-275): success no-op. -/
def extlinux_remove : Bool := true

/-- The `extlinux_update` (extlinux.c lines 266-269): identical to
`extlinux_install`. -/
def extlinux_update (env : ExtInstallEnv) : Bool :=
  extlinux_install env

/-- Observable outcome of `boot_manager_modify_bootloader`. -/
structure ModifyOutcome where
  ok : Bool
  action : Option ModifyAction
  facade : Facade

/-- The `boot_manager_modify_bootloader` (bootman.c lines 598-641) with the
extlinux backend selected: refuse on insane sysconfig; push the current
boot dir back into the backend (re-initializing it); then dispatch:
INSTALL runs `install` always under NO_CHECK, else only when
`needs_install`; REMOVE always runs `remove`; UPDATE analogous with
`update`/`needs_update`; anything else is a fatal error. -/
def boot_manager_modify_bootloader (env : SysEnv) (ienv : ExtInstallEnv)
    (f : Facade) (flags : OpFlags) : ModifyOutcome :=
  if !cbm_is_sysconfig_sane f.sysconfig then
    { ok := false, action := none, facade := f }
  else
    let boot_dir := boot_manager_get_boot_dir env f
    let f' := boot_manager_set_boot_dir env f boot_dir
    if flags.op_install then
      if flags.nocheck then
        { ok := extlinux_install ienv, action := some .ranInstall, facade := f' }
      else if extlinux_needs_install then
        { ok := extlinux_install ienv, action := some .ranInstall, facade := f' }
      else
        { ok := true, action := some .skipped, facade := f' }
    else if flags.op_remove then
      { ok := extlinux_remove, action := some .ranRemove, facade := f' }
    else if flags.op_update then
      if flags.nocheck then
        { ok := extlinux_update ienv, action := some .ranUpdate, facade := f' }
      else if extlinux_needs_update then
        { ok := extlinux_update ienv, action := some .ranUpdate, facade := f' }
      else
        { ok := true, action := some .skipped, facade := f' }
    else
      { ok := false, action := none, facade := f' }

/-- The `boot_manager_select_bootloader` (bootman.c lines 107-145), selection
loop over the ordered registry `bootman_known_loaders`: given each
registered backend's `get_capabilities` result in registry order, the
index of the first whose capability set is a superset of the wanted
mask. -/
def boot_manager_select_bootloader (caps : List Nat) (wanted : Nat) : Option Nat :=
  match caps with
  | [] => none
  | c :: rest =>
      if (c &&& wanted) = wanted then some 0
      else (boot_manager_select_bootloader rest wanted).map (· + 1)

/-- The boolean outcome of `boot_manager_select_bootloader`: false (a
fatal error) exactly when no backend matched. -/
def boot_manager_select_bootloader_ok (caps : List Nat) (wanted : Nat) : Bool :=
  (boot_manager_select_bootloader caps wanted).isSome

/-- Comma-joined rendering, following the spec's words for the initrd CSV
("comma-joined"): entries separated by commas, with no leading comma. -/
def commaJoin : List String → String
  | [] => ""
  | [x] => x
  | x :: y :: rest => x ++ "," ++ commaJoin (y :: rest)

/-- The initrd entries of one stanza, following the spec's words: the
kernel's own `target.initrd_path` (if any) followed by all freestanding
initrds in facade iteration order. -/
def spec_initrd_list (kernel : Kernel) (freestanding : List String) : List String :=
  (match kernel.target.initrd_path with
   | some p => [p]
   | none => []) ++ freestanding

/-- The `APPEND` line, following the spec's words: `root=PARTUUID=<id>`
when the root device has a `part_uuid` and `root=UUID=<id>` otherwise,
then `rd.luks.uuid=<id>` when a LUKS UUID is present, ending with the
kernel's cmdline. -/
def spec_append_line (root_dev : CbmDeviceProbe) (kernel : Kernel) : String :=
  "APPEND " ++
    (match root_dev.part_uuid with
     | some p => "root=PARTUUID=" ++ p ++ " "
     | none => "root=UUID=" ++ root_dev.uuid ++ " ") ++
    (match root_dev.luks_uuid with
     | some l => "rd.luks.uuid=" ++ l ++ " "
     | none => "") ++
    kernel.meta.cmdline ++ "\n"

/-- One stanza, following the spec's words: `DEFAULT` prefix when the
kernel's `source.path` equals the requested default's, `LABEL`/`KERNEL`
named by `target.legacy_path`, `INITRD` only when the entry list is
non-empty (comma-joined), and the `APPEND` line. -/
def spec_stanza (root_dev : CbmDeviceProbe) (freestanding : List String)
    (default_kernel : Kernel) (k : Kernel) : String :=
  (if k.source.path = default_kernel.source.path then
     "DEFAULT " ++ k.target.legacy_path ++ "\n"
   else "") ++
  "LABEL " ++ k.target.legacy_path ++ "\n" ++
  "  KERNEL " ++ k.target.legacy_path ++ "\n" ++
  (if spec_initrd_list k freestanding ≠ [] then
     "  INITRD " ++ commaJoin (spec_initrd_list k freestanding) ++ "\n"
   else "") ++
  spec_append_line root_dev k

/-- The whole config, following the spec's words: the queued kernels'
stanzas in insertion order (a default was requested, so no `TIMEOUT`
header). -/
def spec_config (root_dev : CbmDeviceProbe) (freestanding : List String)
    (queue : List Kernel) (default_kernel : Kernel) : String :=
  String.join (queue.map (spec_stanza root_dev freestanding default_kernel))

/-- The `,`-prefixed concatenation of entries, the shape the C builder's
leading-comma accumulation produces. -/
def preComma : List String → String
  | [] => ""
  | n :: rest => "," ++ n ++ preComma rest

/-- Whether `mask` contains the capability `bit`. -/
def mask_has (mask bit : Nat) : Bool :=
  (mask &&& bit) = bit

/-- Exactly one of two flags. -/
def exactly_one (a b : Bool) : Bool :=
  a != b

/-- Queue a list of kernels in order through `extlinux_install_kernel`. -/
def install_fold (st : ExtState) (ks : List Kernel) : ExtState :=
  ks.foldl (fun s k => (extlinux_install_kernel s k).1) st

/-- A sample root-device probe for concrete evaluations. -/
def sample_probe : CbmDeviceProbe :=
  { uuid := "1234-5678", part_uuid := none, luks_uuid := none }

/-- A concrete inspector environment: legacy GPT boot device carrying an
xfs filesystem (a type `cbm_get_fstype` maps to no capability bit). -/
def xfs_inspect_env : InspectEnv :=
  { realpath_pfx := some "/",
    fw_efi_exists := false,
    legacy_boot_device := some "/dev/sda2",
    esp_boot_device := none,
    realpath_boot := fun d => some d,
    fstype_of := fun _ => "xfs",
    root_probe := some sample_probe }

/-- A concrete inspector environment identical to `xfs_inspect_env` but
with an ext4 boot filesystem. -/
def ext4_inspect_env : InspectEnv :=
  { realpath_pfx := some "/",
    fw_efi_exists := false,
    legacy_boot_device := some "/dev/sda2",
    esp_boot_device := none,
    realpath_boot := fun d => some d,
    fstype_of := fun _ => "ext4",
    root_probe := some sample_probe }

/-- A concrete stub environment: nothing mounted, `realpath` failing (so
`get_boot_dir` falls back to the concatenation), the boot device reported
premounted at `/mnt/esp`. -/
def premounted_env : SysEnv :=
  { realpath := fun _ => none,
    is_mounted := fun _ => false,
    mountpoint_for_device := fun _ => some "/mnt/esp",
    mount_ok := true,
    file_exists := fun _ => false }

/-- A concrete facade on a UEFI host with a boot device, expected boot
dir `/boot`. -/
def premounted_facade : Facade :=
  { abs_bootdir := none,
    sysconfig :=
      { pfx := "", boot_device := some "/dev/sda1",
        root_device := some sample_probe,
        wanted_boot_mask := BOOTLOADER_CAP_UEFI ||| BOOTLOADER_CAP_GPT },
    freestanding := [],
    ext := extlinux_init "/boot" "" false }

/-- A concrete kernel (`ktype` "org.clearlinux", version "5.0", release
1) with source blob `/ka`. -/
def kernelA : Kernel :=
  { meta :=
      { ktype := "org.clearlinux", version := "5.0", release := 1,
        bpath := "a", cmdline := "quiet" },
    source := { path := "/ka" },
    target := { legacy_path := "la", initrd_path := none } }

/-- A kernel agreeing with `kernelA` on `(ktype, version, release)` but
with a different `source.path` and stanza name. -/
def kernelB : Kernel :=
  { meta :=
      { ktype := "org.clearlinux", version := "5.0", release := 1,
        bpath := "b", cmdline := "quiet" },
    source := { path := "/kb" },
    target := { legacy_path := "lb", initrd_path := none } }

/-- A concrete legacy-mode facade (no mounting involved). -/
def legacy_facade : Facade :=
  { abs_bootdir := none,
    sysconfig :=
      { pfx := "", boot_device := none,
        root_device := some sample_probe,
        wanted_boot_mask := BOOTLOADER_CAP_LEGACY },
    freestanding := [],
    ext := extlinux_init "/boot" "" false }

/-- Concrete file outcomes: config absent on disk, writes succeed. -/
def fresh_file_env : ExtFileEnv :=
  { old_conf := none, write_ok := true }

end Cbm

namespace Cbm

theorem foldl_comma (l : List String) (acc : String) :
    l.foldl (fun a n => a ++ "," ++ n) acc = acc ++ preComma l := by
  induction l generalizing acc with
  | nil => simp [preComma]
  | cons x xs ih =>
      rw [List.foldl_cons, ih, preComma]
      simp [String.append_assoc]

theorem initrd_csv_eq_preComma (k : Kernel) (fs : List String) :
    extlinux_initrd_csv k fs = preComma (spec_initrd_list k fs) := by
  unfold extlinux_initrd_csv spec_initrd_list
  cases h : k.target.initrd_path with
  | none =>
      rw [foldl_comma]
      simp [preComma]
  | some p =>
      rw [foldl_comma]
      simp [preComma, String.append_assoc]

theorem preComma_of_ne_nil (l : List String) (h : l ≠ []) :
    preComma l = "," ++ commaJoin l := by
  cases l with
  | nil => exact absurd rfl h
  | cons x xs =>
      induction xs generalizing x with
      | nil => simp [preComma, commaJoin]
      | cons y ys ih =>
          simp [preComma, commaJoin, String.append_assoc] at ih ⊢
          simp [ih y]

theorem comma_append_length (s : String) : ("," ++ s).length = s.length + 1 := by
  have h1 : ",".length = 1 := rfl
  simp [String.length_append, h1]
  omega

theorem comma_append_drop_one (s : String) : ("," ++ s).drop 1 = s := by
  simp [String.drop_eq, String.data_append]

theorem initrd_segment_eq_spec (k : Kernel) (fs : List String) :
    (if (extlinux_initrd_csv k fs).length ≠ 0 then
       "  INITRD " ++ (extlinux_initrd_csv k fs).drop 1 ++ "\n"
     else "") =
    (if spec_initrd_list k fs ≠ [] then
       "  INITRD " ++ commaJoin (spec_initrd_list k fs) ++ "\n"
     else "") := by
  have hcsv : extlinux_initrd_csv k fs = preComma (spec_initrd_list k fs) :=
    initrd_csv_eq_preComma k fs
  cases h : spec_initrd_list k fs with
  | nil => simp [hcsv, h, preComma]
  | cons x xs =>
      have hp : preComma (x :: xs) = "," ++ commaJoin (x :: xs) :=
        preComma_of_ne_nil _ (by simp)
      rw [hcsv, h, hp,
        if_pos (by rw [comma_append_length]; omega),
        if_pos (by simp : (x :: xs : List String) ≠ []),
        comma_append_drop_one]

theorem extlinux_stanza_eq_spec (rd : CbmDeviceProbe) (fs : List String)
    (d k : Kernel) : extlinux_stanza rd fs (some d) k = spec_stanza rd fs d k := by
  unfold extlinux_stanza spec_stanza
  rw [initrd_segment_eq_spec]
  rfl

/-- Claim C1: for every non-empty queued-kernel sequence, the extlinux
`set_default_kernel` config synthesis walks the queued kernels in
insertion order, emitting a `LABEL`/`KERNEL` block named by
`target.legacy_path`, prefixing the block whose kernel's `source.path`
equals the requested default's with a `DEFAULT` line; the `INITRD` line
appears only when the CSV (the kernel's own `target.initrd_path`, if any,
followed by the freestanding initrds in facade iteration order,
comma-joined) is non-empty; the `APPEND` line uses `root=PARTUUID=` when
the root device has a `part_uuid` and `root=UUID=` otherwise, adds
`rd.luks.uuid=` when a LUKS UUID is present, and ends with the kernel's
cmdline. -/
theorem extlinux_config_matches_spec (rd : CbmDeviceProbe) (fs : List String)
    (queue : List Kernel) (d : Kernel) (_hq : queue ≠ []) :
    extlinux_config rd fs queue (some d) = spec_config rd fs queue d := by
  unfold extlinux_config spec_config
  rw [funext (extlinux_stanza_eq_spec rd fs d)]
  simp

/-- Witness for C1, at a concrete two-kernel queue with one freestanding
initrd. -/
theorem extlinux_config_matches_spec_witness :
    extlinux_config sample_probe ["fs.img"] [kernelA, kernelB] (some kernelA) =
      spec_config sample_probe ["fs.img"] [kernelA, kernelB] kernelA :=
  extlinux_config_matches_spec sample_probe ["fs.img"] [kernelA, kernelB] kernelA
    (by simp)

/-- Claim C3: queueing the same kernel twice through the extlinux
backend's `install_kernel` yields the same queued-kernel set as queueing
it once; a kernel whose `source.path` is already queued is not queued
again; and the call returns success either way. -/
theorem extlinux_install_kernel_idempotent (st : ExtState) (k : Kernel) :
    (extlinux_install_kernel st k).2 = true ∧
    extlinux_install_kernel (extlinux_install_kernel st k).1 k =
      ((extlinux_install_kernel st k).1, true) ∧
    (extlinux_install_kernel st k).1.kernel_queue =
      (if st.kernel_queue.any (fun q => q.source.path = k.source.path) then
        st.kernel_queue
      else st.kernel_queue ++ [k]) := by
  by_cases h : st.kernel_queue.any (fun q => q.source.path = k.source.path)
  · refine ⟨?_, ?_, ?_⟩ <;> simp [extlinux_install_kernel, h]
  · refine ⟨?_, ?_, ?_⟩
    · simp [extlinux_install_kernel, h]
    · simp [extlinux_install_kernel, h, List.any_append]
    · simp [extlinux_install_kernel, h]

/-- Claim C4: when the synthesized config equals the on-disk file's
content, `extlinux_set_default_kernel` performs no write and no sync and
returns success; when they differ and the write succeeds, it writes and
then calls the process-wide sync primitive. -/
theorem extlinux_set_default_write_elision (env : ExtFileEnv) (rd : CbmDeviceProbe)
    (fs : List String) (st : ExtState) (dk : Option Kernel) :
    (env.old_conf = some (extlinux_config rd fs st.kernel_queue dk) →
      extlinux_set_default_kernel env (some rd) fs st dk =
        { ok := true, wrote := false, synced := false }) ∧
    (env.old_conf ≠ some (extlinux_config rd fs st.kernel_queue dk) →
      env.write_ok = true →
      extlinux_set_default_kernel env (some rd) fs st dk =
        { ok := true, wrote := true, synced := true }) := by
  constructor
  · intro h
    simp [extlinux_set_default_kernel, h]
  · intro h hw
    cases ho : env.old_conf with
    | none => simp [extlinux_set_default_kernel, ho, hw]
    | some old =>
        rw [ho] at h
        have : ¬old = extlinux_config rd fs st.kernel_queue dk := by
          intro he
          exact h (by rw [he])
        simp [extlinux_set_default_kernel, ho, hw, this]

/-- Witness for C4, exercising both the elided-write case and the
changed-content case at concrete inputs. -/
theorem extlinux_set_default_write_elision_witness :
    extlinux_set_default_kernel
        { old_conf := some (extlinux_config sample_probe [] [kernelA] (some kernelA)),
          write_ok := true }
        (some sample_probe) [] (install_fold (extlinux_init "/boot" "" false) [kernelA])
        (some kernelA) =
      { ok := true, wrote := false, synced := false } ∧
    extlinux_set_default_kernel fresh_file_env (some sample_probe) []
        (install_fold (extlinux_init "/boot" "" false) [kernelA]) (some kernelA) =
      { ok := true, wrote := true, synced := true } :=
  ⟨(extlinux_set_default_write_elision
      { old_conf := some (extlinux_config sample_probe [] [kernelA] (some kernelA)),
        write_ok := true }
      sample_probe [] (install_fold (extlinux_init "/boot" "" false) [kernelA])
      (some kernelA)).1 rfl,
   (extlinux_set_default_write_elision fresh_file_env sample_probe []
      (install_fold (extlinux_init "/boot" "" false) [kernelA])
      (some kernelA)).2 (by simp [fresh_file_env]) rfl⟩

/-- Claim C7: `extlinux_install` succeeds exactly when both opens
succeed, the `sendfile` of `CBM_MBR_SYSLINUX_SIZE` (440) requested bytes
transfers exactly 440 bytes, and the external extlinux command exits
zero; in particular a transfer of any other size is a failure, as is any
failed open or a failing command. -/
theorem extlinux_install_mbr_exact (env : ExtInstallEnv) :
    CBM_MBR_SYSLINUX_SIZE = 440 ∧
    (extlinux_install env = true ↔
      env.open_mbr_ok = true ∧ env.open_gptmbr_ok = true ∧
      env.sendfile 440 = 440 ∧ env.extlinux_cmd_rc = 0) ∧
    (env.sendfile 440 ≠ 440 → extlinux_install env = false) := by
  refine ⟨rfl, ?_, ?_⟩
  · unfold extlinux_install CBM_MBR_SYSLINUX_SIZE
    constructor
    · intro h
      by_cases h1 : env.open_mbr_ok <;>
        by_cases h2 : env.open_gptmbr_ok <;>
        by_cases h3 : env.sendfile 440 = 440 <;>
        by_cases h4 : env.extlinux_cmd_rc = 0 <;>
        simp_all
    · intro ⟨h1, h2, h3, h4⟩
      simp [h1, h2, h3, h4]
  · intro h
    unfold extlinux_install CBM_MBR_SYSLINUX_SIZE
    by_cases h1 : env.open_mbr_ok <;> by_cases h2 : env.open_gptmbr_ok <;>
      simp_all

/-- Witness for C7, at a concrete environment where the transfer is short
(439 bytes): install fails. -/
theorem extlinux_install_mbr_exact_witness :
    extlinux_install
        { open_mbr_ok := true, open_gptmbr_ok := true,
          sendfile := fun _ => 439, extlinux_cmd_rc := 0 } = false :=
  (extlinux_install_mbr_exact
      { open_mbr_ok := true, open_gptmbr_ok := true,
        sendfile := fun _ => 439, extlinux_cmd_rc := 0 }).2.2 (by decide)

/-- Claim C9: the extlinux backend's `needs_install` and `needs_update`
both always return true, so `boot_manager_modify_bootloader` behaves
identically with and without the `NO_CHECK` flag for every operation. -/
theorem extlinux_nocheck_irrelevant (env : SysEnv) (ienv : ExtInstallEnv)
    (f : Facade) :
    extlinux_needs_install = true ∧ extlinux_needs_update = true ∧
    ∀ i r u n1 n2 : Bool,
      boot_manager_modify_bootloader env ienv f
          { op_install := i, op_remove := r, op_update := u, nocheck := n1 } =
        boot_manager_modify_bootloader env ienv f
          { op_install := i, op_remove := r, op_update := u, nocheck := n2 } := by
  refine ⟨rfl, rfl, ?_⟩
  intro i r u n1 n2
  cases i <;> cases r <;> cases u <;> cases n1 <;> cases n2 <;>
    simp [boot_manager_modify_bootloader, extlinux_needs_install,
      extlinux_needs_update]

theorem select_bootloader_first (caps : List Nat) (wanted : Nat) (i : Nat)
    (h : boot_manager_select_bootloader caps wanted = some i) :
    ∃ c, caps[i]? = some c ∧ (c &&& wanted) = wanted ∧
      ∀ j c', j < i → caps[j]? = some c' → (c' &&& wanted) ≠ wanted := by
  induction caps generalizing i with
  | nil => simp [boot_manager_select_bootloader] at h
  | cons c rest ih =>
      by_cases hc : (c &&& wanted) = wanted
      · rw [boot_manager_select_bootloader, if_pos hc] at h
        obtain rfl := Option.some.inj h
        exact ⟨c, by simp, hc, fun j c' hj _ => absurd hj (by omega)⟩
      · rw [boot_manager_select_bootloader, if_neg hc] at h
        obtain ⟨i', hi', rfl⟩ := Option.map_eq_some'.mp h
        obtain ⟨c0, hget, hsup, hfirst⟩ := ih i' hi'
        refine ⟨c0, by simpa using hget, hsup, ?_⟩
        intro j c' hj hget'
        cases j with
        | zero =>
            simp at hget'
            rw [← hget']
            exact hc
        | succ j' =>
            exact hfirst j' c' (by omega) (by simpa using hget')

theorem select_bootloader_none (caps : List Nat) (wanted : Nat)
    (h : ∀ c ∈ caps, (c &&& wanted) ≠ wanted) :
    boot_manager_select_bootloader caps wanted = none := by
  induction caps with
  | nil => rfl
  | cons c rest ih =>
      rw [boot_manager_select_bootloader, if_neg (h c (by simp))]
      rw [ih (fun c' hc' => h c' (by simp [hc']))]
      rfl

/-- Claim C8: the bootloader selector scans the ordered registry and
selects the first backend whose reported capability set is a superset of
the wanted mask (`(backend_caps &&& wanted) = wanted`); a backend
reporting zero capabilities is never selected for a non-zero mask; and
when no backend matches, selection fails with `false`. -/
theorem select_bootloader_correct (caps : List Nat) (wanted : Nat) :
    (∀ i, boot_manager_select_bootloader caps wanted = some i →
      ∃ c, caps[i]? = some c ∧ (c &&& wanted) = wanted ∧
        ∀ j c', j < i → caps[j]? = some c' → (c' &&& wanted) ≠ wanted) ∧
    (wanted ≠ 0 → ∀ i, caps[i]? = some 0 →
      boot_manager_select_bootloader caps wanted ≠ some i) ∧
    ((∀ c ∈ caps, (c &&& wanted) ≠ wanted) →
      boot_manager_select_bootloader_ok caps wanted = false) := by
  refine ⟨fun i h => select_bootloader_first caps wanted i h, ?_, ?_⟩
  · intro hw i hi hsel
    obtain ⟨c, hget, hsup, _⟩ := select_bootloader_first caps wanted i hsel
    rw [hi] at hget
    obtain rfl : c = 0 := by exact (Option.some.injEq _ _ ▸ hget.symm)
    rw [Nat.zero_and] at hsup
    exact hw hsup.symm
  · intro h
    rw [boot_manager_select_bootloader_ok, select_bootloader_none caps wanted h]
    rfl

/-- Witness for C8: the registry `[0, 3]` with wanted mask `3 = GPT ||
LEGACY` selects index 1 (the zero-capability backend at index 0 is
skipped), and a registry whose only backend reports zero capabilities
fails selection. -/
theorem select_bootloader_correct_witness :
    (∃ c, ([0, 3] : List Nat)[1]? = some c ∧ (c &&& 3) = 3 ∧
      ∀ j c', j < 1 → ([0, 3] : List Nat)[j]? = some c' → (c' &&& 3) ≠ 3) ∧
    boot_manager_select_bootloader [0, 3] 3 ≠ some 0 ∧
    boot_manager_select_bootloader_ok [0] 3 = false :=
  ⟨(select_bootloader_correct [0, 3] 3).1 1 (by decide),
   (select_bootloader_correct [0, 3] 3).2.1 (by decide) 0 (by decide),
   (select_bootloader_correct [0] 3).2.2 (by decide)⟩

theorem install_fold_mem (ks : List Kernel) (st : ExtState) (k : Kernel)
    (h : k ∈ (install_fold st ks).kernel_queue) :
    k ∈ st.kernel_queue ∨ k ∈ ks := by
  induction ks generalizing st with
  | nil =>
      left
      simpa [install_fold] using h
  | cons x xs ih =>
      rw [install_fold, List.foldl_cons] at h
      rcases ih (extlinux_install_kernel st x).1 (by simpa [install_fold] using h) with hin | hin
      · by_cases hq : st.kernel_queue.any (fun q => q.source.path = x.source.path)
        · rw [extlinux_install_kernel, if_pos hq] at hin
          exact Or.inl hin
        · rw [extlinux_install_kernel, if_neg hq] at hin
          simp only [List.mem_append, List.mem_singleton] at hin
          rcases hin with hin | rfl
          · exact Or.inl hin
          · exact Or.inr (by simp)
      · exact Or.inr (by simp [hin])

/-- Claim C10: every `extlinux_init` — including the re-initializations
performed by `boot_manager_set_boot_dir`, by `mount_boot`'s adoption and
mount branches, and by every `boot_manager_modify_bootloader` call —
replaces the queued-kernel set with the empty set, so kernels queued
before such a re-initialization never reappear: after a re-init, only
kernels installed afterwards can be in the queue a subsequent
`set_default_kernel` synthesizes from. -/
theorem extlinux_reinit_clears_queue :
    (∀ bd pfx ld, (extlinux_init bd pfx ld).kernel_queue = []) ∧
    (∀ env f d, (boot_manager_set_boot_dir env f d).ext.kernel_queue = []) ∧
    (∀ env ienv f flags, cbm_is_sysconfig_sane f.sysconfig = true →
      (boot_manager_modify_bootloader env ienv f flags).facade.ext.kernel_queue = []) ∧
    (∀ env f dev m, env.is_mounted (boot_manager_get_boot_dir env f) = false →
      f.sysconfig.boot_device = some dev →
      env.mountpoint_for_device dev = some m →
      (mount_boot env f).facade.ext.kernel_queue = []) ∧
    (∀ env f dev, env.is_mounted (boot_manager_get_boot_dir env f) = false →
      f.sysconfig.boot_device = some dev →
      env.mountpoint_for_device dev = none →
      env.mount_ok = true →
      (mount_boot env f).facade.ext.kernel_queue = []) ∧
    (∀ env f d ks k,
      k ∈ (install_fold (boot_manager_set_boot_dir env f d).ext ks).kernel_queue →
      k ∈ ks) := by
  refine ⟨?_, ?_, ?_, ?_, ?_, ?_⟩
  · intro bd pfx ld
    rfl
  · intro env f d
    rfl
  · intro env ienv f flags hs
    unfold boot_manager_modify_bootloader
    simp only [hs]
    split_ifs <;> simp_all [boot_manager_set_boot_dir, extlinux_init]
  · intro env f dev m h1 h2 h3
    simp [mount_boot, h1, h2, h3, boot_manager_set_boot_dir, extlinux_init]
  · intro env f dev h1 h2 h3 h4
    simp [mount_boot, h1, h2, h3, h4, boot_manager_set_boot_dir, extlinux_init]
  · intro env f d ks k h
    rcases install_fold_mem ks _ k h with hin | hin
    · rw [show (boot_manager_set_boot_dir env f d).ext.kernel_queue = [] from rfl]
        at hin
      exact absurd hin (by simp)
    · exact hin

/-- Witness for C10, instantiating every clause at concrete inputs. -/
theorem extlinux_reinit_clears_queue_witness :
    (extlinux_init "/boot" "" false).kernel_queue = [] ∧
    (boot_manager_set_boot_dir premounted_env premounted_facade "/mnt/esp").ext.kernel_queue
      = [] ∧
    (boot_manager_modify_bootloader premounted_env
        { open_mbr_ok := true, open_gptmbr_ok := true,
          sendfile := fun n => (n : Int), extlinux_cmd_rc := 0 }
        legacy_facade
        { op_install := true, op_remove := false, op_update := false,
          nocheck := false }).facade.ext.kernel_queue = [] ∧
    (mount_boot premounted_env premounted_facade).facade.ext.kernel_queue = [] ∧
    kernelA ∈ [kernelA, kernelB] :=
  ⟨extlinux_reinit_clears_queue.1 "/boot" "" false,
   extlinux_reinit_clears_queue.2.1 premounted_env premounted_facade "/mnt/esp",
   extlinux_reinit_clears_queue.2.2.1 premounted_env
     { open_mbr_ok := true, open_gptmbr_ok := true,
       sendfile := fun n => (n : Int), extlinux_cmd_rc := 0 }
     legacy_facade
     { op_install := true, op_remove := false, op_update := false, nocheck := false }
     rfl,
   extlinux_reinit_clears_queue.2.2.2.1 premounted_env premounted_facade
     "/dev/sda1" "/mnt/esp" rfl rfl rfl,
   extlinux_reinit_clears_queue.2.2.2.2.2 premounted_env premounted_facade "/b"
     [kernelA, kernelB] kernelA (by decide)⟩

theorem fstype_val (s : String) :
    cbm_get_fstype s = 0 ∨ cbm_get_fstype s = BOOTLOADER_CAP_EXTFS ∨
      cbm_get_fstype s = BOOTLOADER_CAP_FATFS := by
  unfold cbm_get_fstype
  split_ifs <;> simp

theorem fstype_known (s : String)
    (h : s = "ext2" ∨ s = "ext3" ∨ s = "ext4" ∨ s = "vfat") :
    cbm_get_fstype s = BOOTLOADER_CAP_EXTFS ∨
      cbm_get_fstype s = BOOTLOADER_CAP_FATFS := by
  rcases h with h | h | h | h <;> subst h <;> decide

theorem fstype_unknown (s : String)
    (h : ¬(s = "ext2" ∨ s = "ext3" ∨ s = "ext4" ∨ s = "vfat")) :
    cbm_get_fstype s = 0 := by
  have h1 : ¬(s = "ext2" ∨ s = "ext3" ∨ s = "ext4") := by tauto
  have h2 : ¬(s = "vfat") := by tauto
  simp [cbm_get_fstype, h1, h2]

theorem refine_device_invariant (env : InspectEnv) (realp : String)
    (boot : Option String) (mask : Nat)
    (hm : mask = BOOTLOADER_CAP_LEGACY ||| BOOTLOADER_CAP_GPT ∨
      mask = BOOTLOADER_CAP_UEFI ||| BOOTLOADER_CAP_GPT ∨
      mask = BOOTLOADER_CAP_UEFI ∨ mask = BOOTLOADER_CAP_LEGACY) :
    exactly_one
        (mask_has (cbm_refine_device env realp boot mask).wanted_boot_mask
          BOOTLOADER_CAP_UEFI)
        (mask_has (cbm_refine_device env realp boot mask).wanted_boot_mask
          BOOTLOADER_CAP_LEGACY) = true ∧
    (∀ b, (cbm_refine_device env realp boot mask).boot_device = some b →
      mask_has (cbm_refine_device env realp boot mask).wanted_boot_mask
          BOOTLOADER_CAP_GPT = true ∧
      ¬(mask_has (cbm_refine_device env realp boot mask).wanted_boot_mask
          BOOTLOADER_CAP_EXTFS = true ∧
        mask_has (cbm_refine_device env realp boot mask).wanted_boot_mask
          BOOTLOADER_CAP_FATFS = true) ∧
      ((env.fstype_of b = "ext2" ∨ env.fstype_of b = "ext3" ∨
          env.fstype_of b = "ext4" ∨ env.fstype_of b = "vfat") →
        exactly_one
          (mask_has (cbm_refine_device env realp boot mask).wanted_boot_mask
            BOOTLOADER_CAP_EXTFS)
          (mask_has (cbm_refine_device env realp boot mask).wanted_boot_mask
            BOOTLOADER_CAP_FATFS) = true) ∧
      (¬(env.fstype_of b = "ext2" ∨ env.fstype_of b = "ext3" ∨
          env.fstype_of b = "ext4" ∨ env.fstype_of b = "vfat") →
        mask_has (cbm_refine_device env realp boot mask).wanted_boot_mask
            BOOTLOADER_CAP_EXTFS = false ∧
        mask_has (cbm_refine_device env realp boot mask).wanted_boot_mask
            BOOTLOADER_CAP_FATFS = false)) := by
  cases boot with
  | none =>
      have hw : (cbm_refine_device env realp none mask).wanted_boot_mask = mask := rfl
      have hbd : (cbm_refine_device env realp none mask).boot_device = none := rfl
      constructor
      · rw [hw]
        rcases hm with rfl | rfl | rfl | rfl <;> decide
      · intro b hb
        rw [hbd] at hb
        cases hb
  | some b0 =>
      have hw : (cbm_refine_device env realp (some b0) mask).wanted_boot_mask =
          (mask ||| BOOTLOADER_CAP_GPT) |||
            cbm_get_fstype (env.fstype_of ((env.realpath_boot b0).getD b0)) := rfl
      have hbd : (cbm_refine_device env realp (some b0) mask).boot_device =
          some ((env.realpath_boot b0).getD b0) := rfl
      constructor
      · rw [hw]
        rcases fstype_val (env.fstype_of ((env.realpath_boot b0).getD b0)) with
          hf | hf | hf <;> rw [hf] <;>
          rcases hm with rfl | rfl | rfl | rfl <;> decide
      · intro b hb
        rw [hbd] at hb
        obtain rfl := (Option.some.inj hb).symm
        refine ⟨?_, ?_, ?_, ?_⟩
        · rw [hw]
          rcases fstype_val (env.fstype_of ((env.realpath_boot b0).getD b0)) with
            hf | hf | hf <;> rw [hf] <;>
            rcases hm with rfl | rfl | rfl | rfl <;> decide
        · rw [hw]
          rcases fstype_val (env.fstype_of ((env.realpath_boot b0).getD b0)) with
            hf | hf | hf <;> rw [hf] <;>
            rcases hm with rfl | rfl | rfl | rfl <;> decide
        · intro hk
          rw [hw]
          rcases fstype_known _ hk with hf | hf <;> rw [hf] <;>
            rcases hm with rfl | rfl | rfl | rfl <;> decide
        · intro hk
          rw [hw, fstype_unknown _ hk]
          rcases hm with rfl | rfl | rfl | rfl <;> decide

/-- Claim C2 (amended): for every `SystemConfig` produced by
`cbm_inspect_root`, `wanted_boot_mask` contains exactly one of the UEFI
and LEGACY bits; whenever `boot_device` is present, the GPT bit is set
and *at most* one of the EXTFS and FATFS bits is set — exactly one when
the boot filesystem's probed type is ext2/ext3/ext4 or vfat, and neither
for any other type. -/
theorem inspect_root_mask_invariant (env : InspectEnv) (image_mode : Bool)
    (c : SystemConfig) (h : cbm_inspect_root env image_mode = some c) :
    exactly_one (mask_has c.wanted_boot_mask BOOTLOADER_CAP_UEFI)
        (mask_has c.wanted_boot_mask BOOTLOADER_CAP_LEGACY) = true ∧
    (∀ b, c.boot_device = some b →
      mask_has c.wanted_boot_mask BOOTLOADER_CAP_GPT = true ∧
      ¬(mask_has c.wanted_boot_mask BOOTLOADER_CAP_EXTFS = true ∧
        mask_has c.wanted_boot_mask BOOTLOADER_CAP_FATFS = true) ∧
      ((env.fstype_of b = "ext2" ∨ env.fstype_of b = "ext3" ∨
          env.fstype_of b = "ext4" ∨ env.fstype_of b = "vfat") →
        exactly_one (mask_has c.wanted_boot_mask BOOTLOADER_CAP_EXTFS)
          (mask_has c.wanted_boot_mask BOOTLOADER_CAP_FATFS) = true) ∧
      (¬(env.fstype_of b = "ext2" ∨ env.fstype_of b = "ext3" ∨
          env.fstype_of b = "ext4" ∨ env.fstype_of b = "vfat") →
        mask_has c.wanted_boot_mask BOOTLOADER_CAP_EXTFS = false ∧
        mask_has c.wanted_boot_mask BOOTLOADER_CAP_FATFS = false)) := by
  cases hr : env.realpath_pfx with
  | none =>
      rw [cbm_inspect_root, hr] at h
      cases h
  | some realp =>
      rw [cbm_inspect_root, hr] at h
      obtain rfl := Option.some.inj h
      unfold cbm_inspect_root_resolved
      split
      · exact refine_device_invariant env realp _ _ (Or.inl rfl)
      · split
        · exact refine_device_invariant env realp _ _ (Or.inr (Or.inl rfl))
        · refine refine_device_invariant env realp none _ ?_
          split_ifs <;> decide

/-- Witness for C2 (amended), at a concrete legacy ext4 host. -/
theorem inspect_root_mask_invariant_witness :
    exactly_one (mask_has 11 BOOTLOADER_CAP_UEFI)
        (mask_has 11 BOOTLOADER_CAP_LEGACY) = true ∧
    (∀ b,
      (some "/dev/sda2" : Option String) = some b →
      mask_has 11 BOOTLOADER_CAP_GPT = true ∧
      ¬(mask_has 11 BOOTLOADER_CAP_EXTFS = true ∧
        mask_has 11 BOOTLOADER_CAP_FATFS = true) ∧
      ((ext4_inspect_env.fstype_of b = "ext2" ∨
          ext4_inspect_env.fstype_of b = "ext3" ∨
          ext4_inspect_env.fstype_of b = "ext4" ∨
          ext4_inspect_env.fstype_of b = "vfat") →
        exactly_one (mask_has 11 BOOTLOADER_CAP_EXTFS)
          (mask_has 11 BOOTLOADER_CAP_FATFS) = true) ∧
      (¬(ext4_inspect_env.fstype_of b = "ext2" ∨
          ext4_inspect_env.fstype_of b = "ext3" ∨
          ext4_inspect_env.fstype_of b = "ext4" ∨
          ext4_inspect_env.fstype_of b = "vfat") →
        mask_has 11 BOOTLOADER_CAP_EXTFS = false ∧
        mask_has 11 BOOTLOADER_CAP_FATFS = false)) :=
  inspect_root_mask_invariant ext4_inspect_env false
    { pfx := "/", boot_device := some "/dev/sda2",
      root_device := some sample_probe, wanted_boot_mask := 11 }
    (by decide)

/-- Counterexample to C2 as stated: a legacy GPT boot device holding an
xfs filesystem is stored in the produced config, yet neither the EXTFS
nor the FATFS bit is set (`cbm_get_fstype` maps unknown types to zero),
so "exactly one of EXTFS and FATFS" fails. -/
theorem inspect_root_xfs_counterexample :
    cbm_inspect_root xfs_inspect_env false =
      some { pfx := "/", boot_device := some "/dev/sda2",
             root_device := some sample_probe, wanted_boot_mask := 3 } ∧
    exactly_one (mask_has 3 BOOTLOADER_CAP_EXTFS)
        (mask_has 3 BOOTLOADER_CAP_FATFS) = false := by
  constructor
  · decide
  · decide

/-- Claim C5 (amended): when the expected boot dir is not a mount point
but the boot device is reported mounted at `m`, `mount_boot` sets the
facade's `abs_bootdir` override to `m`, re-initializes the backend under
`m`, issues no mount syscall, and reports already-mounted carrying the
originally computed expected boot directory (not `m`). -/
theorem mount_boot_adopts_premounted (env : SysEnv) (f : Facade) (dev m : String)
    (h1 : env.is_mounted (boot_manager_get_boot_dir env f) = false)
    (h2 : f.sysconfig.boot_device = some dev)
    (h3 : env.mountpoint_for_device dev = some m) :
    (mount_boot env f).facade.abs_bootdir = some m ∧
    (mount_boot env f).facade.ext =
      extlinux_init m f.sysconfig.pfx (env.file_exists (m ++ "/ldlinux.sys")) ∧
    (mount_boot env f).mount_called = false ∧
    (mount_boot env f).result = .alreadyMounted (boot_manager_get_boot_dir env f) := by
  have h1' := h1
  simp only [boot_manager_get_boot_dir] at h1'
  refine ⟨?_, ?_, ?_, ?_⟩ <;>
    simp [mount_boot, boot_manager_get_boot_dir, h1', h2, h3,
      boot_manager_set_boot_dir]

/-- Witness for C5 (amended), at the concrete premounted-ESP scenario. -/
theorem mount_boot_adopts_premounted_witness :
    (mount_boot premounted_env premounted_facade).facade.abs_bootdir =
      some "/mnt/esp" ∧
    (mount_boot premounted_env premounted_facade).facade.ext =
      extlinux_init "/mnt/esp" premounted_facade.sysconfig.pfx
        (premounted_env.file_exists ("/mnt/esp" ++ "/ldlinux.sys")) ∧
    (mount_boot premounted_env premounted_facade).mount_called = false ∧
    (mount_boot premounted_env premounted_facade).result =
      .alreadyMounted (boot_manager_get_boot_dir premounted_env premounted_facade) :=
  mount_boot_adopts_premounted premounted_env premounted_facade "/dev/sda1"
    "/mnt/esp" rfl rfl rfl

/-- Counterexample to C5 as stated: in the premounted-ESP scenario with
expected boot dir `/boot` and adopted mountpoint `/mnt/esp`, the broker
returns already-mounted carrying `/boot` — not the adopted path
`/mnt/esp` the claim names. -/
theorem mount_boot_result_counterexample :
    (mount_boot premounted_env premounted_facade).result =
      .alreadyMounted "/boot" ∧
    (mount_boot premounted_env premounted_facade).facade.abs_bootdir =
      some "/mnt/esp" ∧
    MountResult.alreadyMounted "/boot" ≠ MountResult.alreadyMounted "/mnt/esp" := by
  refine ⟨?_, ?_, ?_⟩
  · decide
  · decide
  · decide

/-- Claim C6 (amended): with a selected backend and sane sysconfig,
`boot_manager_set_default_kernel` searches the enumerated kernels for one
matching the caller's kernel on `(ktype, version, release)`; if a match
exists it calls the backend's `set_default_kernel` with the *caller's*
kernel (which agrees with the matched enumerated kernel on those three
fields but need not be that enumerated kernel) and returns that call's
result; if no match exists it returns false; zero enumerated kernels
return false without calling the backend. -/
theorem set_default_uses_caller_kernel (env : SysEnv) (fenv : ExtFileEnv)
    (kernels : List Kernel) (f : Facade) (kernel : Kernel) :
    (kernels.isEmpty = true →
      boot_manager_set_default_kernel env fenv kernels f kernel =
        { ok := false, backend_arg := none }) ∧
    (kernels.find? (fun k => kernel_matches kernel k) = none →
      boot_manager_set_default_kernel env fenv kernels f kernel =
        { ok := false, backend_arg := none }) ∧
    (∀ f' km, cbm_is_sysconfig_sane f.sysconfig = true →
      kernels.isEmpty = false →
      set_default_step env f = some f' →
      kernels.find? (fun k => kernel_matches kernel k) = some km →
      boot_manager_set_default_kernel env fenv kernels f kernel =
        { ok := (extlinux_set_default_kernel fenv f'.sysconfig.root_device
            f'.freestanding f'.ext (some kernel)).ok,
          backend_arg := some kernel }) := by
  refine ⟨?_, ?_, ?_⟩
  · intro he
    by_cases hs : cbm_is_sysconfig_sane f.sysconfig <;>
      simp [boot_manager_set_default_kernel, he, hs]
  · intro hf
    by_cases hs : cbm_is_sysconfig_sane f.sysconfig
    · by_cases he : kernels.isEmpty
      · simp [boot_manager_set_default_kernel, hs, he]
      · cases hstep : set_default_step env f <;>
          simp [boot_manager_set_default_kernel, hs, he, hstep, hf]
    · simp [boot_manager_set_default_kernel, hs]
  · intro f' km hs he hstep hfind
    simp [boot_manager_set_default_kernel, hs, he, hstep, hfind]

/-- Witness for C6 (amended): the empty enumeration refuses, and a
concrete match runs the backend with the caller's kernel. -/
theorem set_default_uses_caller_kernel_witness :
    boot_manager_set_default_kernel premounted_env fresh_file_env []
        legacy_facade kernelA = { ok := false, backend_arg := none } ∧
    boot_manager_set_default_kernel premounted_env fresh_file_env [kernelB]
        legacy_facade kernelA =
      { ok := (extlinux_set_default_kernel fresh_file_env
          legacy_facade.sysconfig.root_device legacy_facade.freestanding
          legacy_facade.ext (some kernelA)).ok,
        backend_arg := some kernelA } :=
  ⟨(set_default_uses_caller_kernel premounted_env fresh_file_env []
      legacy_facade kernelA).1 rfl,
   (set_default_uses_caller_kernel premounted_env fresh_file_env [kernelB]
      legacy_facade kernelA).2.2 legacy_facade kernelB rfl rfl rfl (by decide)⟩

/-- Counterexample to C6 as stated: the enumerated kernel matching the
caller's on `(ktype, version, release)` is `kernelB`, yet the backend's
`set_default_kernel` receives the caller's `kernelA`, a different kernel
(different `source.path`). -/
theorem set_default_caller_counterexample :
    List.find? (fun k => kernel_matches kernelA k) [kernelB] = some kernelB ∧
    (boot_manager_set_default_kernel premounted_env fresh_file_env [kernelB]
        legacy_facade kernelA).backend_arg = some kernelA ∧
    kernelA ≠ kernelB := by
  refine ⟨?_, ?_, ?_⟩
  · decide
  · decide
  · decide

end Cbm
